import Mathlib

/-!
Verification of the rpaas-operator CLI fragment (cmd/plugin/rpaasv2/cmd):
the `logs` command action and the `autoscale info`/`update`/`remove`
commands' request building, error wrapping and output formatting.

The `logs` command (`NewCmdLogs`, `runLogRpaas`) is embedded directly from
the source.  The autoscale command implementation is not part of the
source fragment (only its tests are), so those operations are modelled
from the specification, pinned by the exact strings the repository's
tests assert.
-/

namespace RpaasCLI

/-- Flag values parsed by the `logs` command (from `NewCmdLogs` in
`cmd/plugin/rpaasv2/cmd/log.go`): service, instance, pod, container,
lines, since (a duration, in nanoseconds), follow, without-color.
Boolean flags default to `false`, numeric flags to `0` and string flags
to `""` when not supplied, as in the CLI framework. -/
structure LogFlags where
  service : String
  instanceName : String
  pod : String
  container : String
  lines : Int
  since : Int
  follow : Bool
  withoutColor : Bool
deriving Repr, DecidableEq

/-- The `rpaasclient.LogArgs` struct passed to the external client's
`Log` operation, parametrised over the type of the output writer. -/
structure LogArgs (ω : Type) where
  out : ω
  instanceName : String
  lines : Int
  since : Int
  follow : Bool
  pod : String
  container : String
  color : Bool
deriving Repr

/-- The struct literal built inside `runLogRpaas` (log.go lines 70-79):
every field is the corresponding flag value, except `color`, which is
the negation of the `without-color` flag, and `out`, which is the
application's writer. -/
def marshalLogArgs {ω : Type} (writer : ω) (f : LogFlags) : LogArgs ω :=
  { out := writer
    instanceName := f.instanceName
    lines := f.lines
    since := f.since
    follow := f.follow
    pod := f.pod
    container := f.container
    color := !f.withoutColor }

/-- Embedding of `runLogRpaas` (log.go lines 64-80): obtain the client
(`getClient` may fail, in which case its error is returned), then call
the client's `Log` operation once with the marshalled `LogArgs`.  The
client is represented by the `Log` operation it provides. -/
def runLogRpaas {ω : Type} (getClientResult : Except String (LogArgs ω → Except String Unit))
    (writer : ω) (f : LogFlags) : Except String Unit :=
  match getClientResult with
  | .error e => .error e
  | .ok logFn => logFn (marshalLogArgs writer f)

/-- A scheduled autoscaling window, as in the wire contract
(`schedules[].minReplicas/start/end/timezone`): a minimum replica count,
cron-style start and end expressions, and an optional IANA timezone. -/
structure ScheduledWindow where
  minReplicas : Int
  start : String
  end_ : String
  timezone : Option String
deriving Repr, DecidableEq

/-- The autoscale spec exchanged with the API (`autogenerated.Autoscale`):
required `minReplicas`/`maxReplicas`, optional `cpu`/`memory`/`rps`
triggers (absence means unset, not zero), and a possibly empty list of
scheduled windows. -/
structure Autoscale where
  minReplicas : Int
  maxReplicas : Int
  cpu : Option Int
  memory : Option Int
  rps : Option Int
  schedules : List ScheduledWindow
deriving Repr, DecidableEq

/-- A JSON value, used to state what the outgoing payloads and rendered
responses contain.  Objects keep their fields as an ordered list. -/
inductive JVal where
  | num (n : Int)
  | str (s : String)
  | arr (elems : List JVal)
  | obj (fields : List (String × JVal))
deriving Repr

/-- Flag values of an `autoscale update` invocation: service and
instance names, the required `--min`/`--max` bounds, the optional
`--cpu`/`--memory`/`--rps` triggers (`none` when the flag was not
supplied), and the `--schedule` fragments in command-line order. -/
structure UpdateFlags where
  service : String
  instanceName : String
  min : Int
  max : Int
  cpu : Option Int
  memory : Option Int
  rps : Option Int
  schedules : List ScheduledWindow
deriving Repr, DecidableEq

/-- JSON object for one scheduled window, with the wire field names
`minReplicas`, `start`, `end` and, when present, `timezone`. -/
def scheduledWindowJson (w : ScheduledWindow) : JVal :=
  .obj ([("minReplicas", .num w.minReplicas),
         ("start", .str w.start),
         ("end", .str w.end_)] ++
        (match w.timezone with
         | some tz => [("timezone", .str tz)]
         | none => []))

/-- Modelled from the spec: the `autoscale update` request builder
(section 4.1; the implementation is not in the source fragment).  Only
flags explicitly supplied by the caller are included in the outgoing
payload: `minReplicas`/`maxReplicas` are always present, while `cpu`,
`memory`, `rps` and `schedules` contribute a key only when supplied.
Field contents are pinned by the repository's `TestUpdateAutoscale`. -/
def buildUpdatePayload (f : UpdateFlags) : JVal :=
  .obj ([("minReplicas", .num f.min), ("maxReplicas", .num f.max)] ++
        (match f.cpu with | some v => [("cpu", .num v)] | none => []) ++
        (match f.memory with | some v => [("memory", .num v)] | none => []) ++
        (match f.rps with | some v => [("rps", .num v)] | none => []) ++
        (if f.schedules.isEmpty then []
         else [("schedules", .arr (f.schedules.map scheduledWindowJson))]))

/-- The field list of the update payload (it is always an object). -/
def updatePayloadFields (f : UpdateFlags) : List (String × JVal) :=
  match buildUpdatePayload f with
  | .obj fields => fields
  | _ => []

/-- The keys of the update payload, in payload order. -/
def updatePayloadKeys (f : UpdateFlags) : List String :=
  (updatePayloadFields f).map Prod.fst

/-- Modelled from the spec: error wrapping of a failed `autoscale info`
upstream call.  Section 8 and the repository's `TestGetAutoscale` pin the
text: the fixed operation prefix followed by the upstream error text
verbatim. -/
def getAutoscaleErrorMessage (upstream : String) : String :=
  "could not get autoscale from RPaaS API: " ++ upstream

/-- Modelled from the spec: error wrapping of a failed `autoscale
update` upstream call (section 4.2, pinned by `TestUpdateAutoscale`). -/
def updateAutoscaleErrorMessage (upstream : String) : String :=
  "could not update the autoscale on RPaaS API: " ++ upstream

/-- Modelled from the spec: error wrapping of a failed `autoscale
remove` upstream call (section 4.2, pinned by `TestRemoveAutoscale`). -/
def deleteAutoscaleErrorMessage (upstream : String) : String :=
  "could not delete the autoscale on RPaaS API: " ++ upstream

/-- Exit code of a command run: non-zero exit with error text on any
failure, zero exit on success (spec section 6). -/
def exitCodeOf {α : Type} (r : Except String α) : Nat :=
  match r with
  | .error _ => 1
  | .ok _ => 0

/-- Modelled from the spec: the `autoscale update` command action (the
implementation is not in the source fragment).  It performs exactly one
upstream call — `upstream i` is the result the API would give to the
`i`-th call, and the second component counts the calls made — and either
wraps the upstream error with the fixed update prefix (no retry) or
writes the confirmation text.  Strings pinned by `TestUpdateAutoscale`. -/
def updateAutoscaleRun (f : UpdateFlags) (upstream : Nat → Except String Unit) :
    Except String String × Nat :=
  (match upstream 0 with
   | .error e => .error (updateAutoscaleErrorMessage e)
   | .ok _ => .ok ("Autoscale of " ++ f.service ++ "/" ++ f.instanceName ++
       " successfully updated!\n"),
   1)

/-- Modelled from the spec: the `autoscale remove` command action, with
the same single-upstream-call shape as `updateAutoscaleRun`.  Strings
pinned by `TestRemoveAutoscale`. -/
def removeAutoscaleRun (service instanceName : String)
    (upstream : Nat → Except String Unit) : Except String String × Nat :=
  (match upstream 0 with
   | .error e => .error (deleteAutoscaleErrorMessage e)
   | .ok _ => .ok ("Autoscale of " ++ service ++ "/" ++ instanceName ++
       " successfully removed\n"),
   1)

/-- Splits a character list into space-separated words (helper for the
cron humanizer). -/
def wordsAux : List Char → List Char → List String
  | [], acc => if acc.isEmpty then [] else [String.mk acc.reverse]
  | c :: cs, acc =>
    if c = ' ' then
      if acc.isEmpty then wordsAux cs [] else String.mk acc.reverse :: wordsAux cs []
    else wordsAux cs (c :: acc)

/-- The space-separated words of a string. -/
def words (s : String) : List String := wordsAux s.data []

/-- Parses a character list as a decimal natural number. -/
def parseNatAux : List Char → Nat → Option Nat
  | [], acc => some acc
  | c :: cs, acc =>
    if c.isDigit then parseNatAux cs (acc * 10 + (c.toNat - 48)) else none

/-- Parses a non-empty all-digit string as a natural number. -/
def parseNatChars (cs : List Char) : Option Nat :=
  if cs.isEmpty then none else parseNatAux cs 0

/-- Splits a character list at its first dash, when it has one. -/
def splitDash : List Char → Option (List Char × List Char)
  | [] => none
  | c :: cs =>
    if c = '-' then some ([], cs)
    else (splitDash cs).map (fun p => (c :: p.1, p.2))

/-- Name of a cron day-of-week number (0 = Sunday … 6 = Saturday). -/
def dayName : Nat → Option String
  | 0 => some "Sunday"
  | 1 => some "Monday"
  | 2 => some "Tuesday"
  | 3 => some "Wednesday"
  | 4 => some "Thursday"
  | 5 => some "Friday"
  | 6 => some "Saturday"
  | _ => none

/-- Two-digit zero-padded rendering of a number below 100. -/
def twoDigits (n : Nat) : String :=
  if n < 10 then "0" ++ toString n else toString n

/-- The hour on the 12-hour clock. -/
def hour12 (h : Nat) : Nat :=
  if h = 0 then 12 else if h > 12 then h - 12 else h

/-- AM for hours before noon, PM otherwise. -/
def meridiem (h : Nat) : String := if h < 12 then "AM" else "PM"

/-- Modelled from the spec: the day-of-week phrase of the cron
humanization (section 4.3's "weekday + time rendering"; the humanizer
library is not in the source fragment).  A range `a-b` renders as
"DayA through DayB", a single day as "only on Day", `*` adds no day
phrase.  Renderings pinned by the `with schedules` case of
`TestGetAutoscale`. -/
def dowPhrase (field : String) : Option String :=
  if field = "*" then some ""
  else
    match splitDash field.data with
    | some (a, b) =>
      match parseNatChars a, parseNatChars b with
      | some x, some y =>
        match dayName x, dayName y with
        | some dx, some dy => some (", " ++ dx ++ " through " ++ dy)
        | _, _ => none
      | _, _ => none
    | none =>
      match parseNatChars field.data with
      | some x =>
        match dayName x with
        | some d => some (", only on " ++ d)
        | none => none
      | none => none

/-- Modelled from the spec: humanization of a cron expression of the
form "MM HH * * DOW" as a 12-hour time plus weekday phrase ("At 08:00
AM, Monday through Friday").  Expressions outside this shape are left
as they are. -/
def humanizeCron (expr : String) : String :=
  match words expr with
  | [mm, hh, "*", "*", dw] =>
    match parseNatChars mm.data, parseNatChars hh.data, dowPhrase dw with
    | some m, some h, some dp =>
      if m < 60 && h < 24 then
        "At " ++ twoDigits (hour12 h) ++ ":" ++ twoDigits m ++ " " ++
          meridiem h ++ dp
      else expr
    | _, _, _ => expr
  | _ => expr

/-- Modelled from the spec: a schedule boundary renders as the
humanized cron expression with the raw cron string appended in
parentheses (section 4.3). -/
def humanizedWithRaw (expr : String) : String :=
  humanizeCron expr ++ " (" ++ expr ++ ")"

/-- A run of `n` copies of a character, for padding and borders. -/
def charRun (c : Char) (n : Nat) : String := String.mk (List.replicate n c)

/-- Left-aligns a string in a field of width `w`. -/
def padRight (s : String) (w : Nat) : String :=
  s ++ charRun ' ' (w - s.length)

/-- Centers a string in a field of total width `w` (extra space goes to
the right), as the table writer does with header cells. -/
def centerIn (s : String) (w : Nat) : String :=
  charRun ' ' ((w - s.length) / 2) ++ s ++
    charRun ' ' (w - s.length - (w - s.length) / 2)

/-- The `+---+---+` border line of a two-column table whose content
widths are `w1` and `w2` (one space of margin on each side). -/
def tableBorder (w1 w2 : Nat) : String :=
  "+" ++ charRun '-' (w1 + 2) ++ "+" ++ charRun '-' (w2 + 2) ++ "+"

/-- Width of a table column: the longest of the header and the cell
lines it holds. -/
def colWidth (header : String) (cells : List String) : Nat :=
  (header.length :: cells.map String.length).foldl max 0

/-- The lines of one table row: the key appears on the first line only,
and every line of the multi-line value cell becomes a table line. -/
def renderRow (w1 w2 : Nat) (r : String × List String) : List String :=
  ((r.1 :: List.replicate (r.2.length - 1) "").zip r.2).map
    (fun p => "| " ++ padRight p.1 w1 ++ " | " ++ padRight p.2 w2 ++ " |")

/-- Modelled from the spec: the cell block of one scheduled window in
the "Schedule(s)" table row — window number, min replicas, humanized
start/end with the raw cron appended, and the timezone when present
(section 4.3; layout pinned by `TestGetAutoscale`). -/
def scheduleWindowBlock (i : Nat) (w : ScheduledWindow) : List String :=
  ["Window " ++ toString i ++ ":",
   "  Min replicas: " ++ toString w.minReplicas,
   "  Start: " ++ humanizedWithRaw w.start,
   "  End: " ++ humanizedWithRaw w.end_] ++
  (match w.timezone with
   | some tz => ["  Timezone: " ++ tz]
   | none => [])

/-- The "Schedule(s)" cell: one block per window, blank line between. -/
def scheduleCell (ws : List ScheduledWindow) : List String :=
  List.intercalate [""]
    (ws.enum.map (fun p => scheduleWindowBlock (p.1 + 1) p.2))

/-- Modelled from the spec: the rows of the Triggers table — one row
per active trigger (CPU %, Memory %, RPS req/s) and, if schedules
exist, a single "Schedule(s)" row (section 4.2). -/
def triggerRows (a : Autoscale) : List (String × List String) :=
  (match a.cpu with
   | some v => [("CPU", [toString v ++ "%"])] | none => []) ++
  (match a.memory with
   | some v => [("Memory", [toString v ++ "%"])] | none => []) ++
  (match a.rps with
   | some v => [("RPS", [toString v ++ " req/s"])] | none => []) ++
  (if a.schedules.isEmpty then []
   else [("Schedule(s)", scheduleCell a.schedules)])

/-- Modelled from the spec: table-mode rendering of an autoscale spec —
two header lines `min replicas:`/`max replicas:` followed by the
two-column Triggers table (section 4.2; exact layout pinned by
`TestGetAutoscale`). -/
def renderAutoscaleTable (a : Autoscale) : String :=
  let rows := triggerRows a
  let w1 := colWidth "Triggers" (rows.map Prod.fst)
  let w2 := colWidth "trigger details" (rows.map Prod.snd).flatten
  let b := tableBorder w1 w2
  let headerLine := "|" ++ centerIn "Triggers" (w1 + 2) ++ "|" ++
    centerIn "trigger details" (w2 + 2) ++ "|"
  String.intercalate "\n"
    (["min replicas: " ++ toString a.minReplicas,
      "max replicas: " ++ toString a.maxReplicas,
      b, headerLine, b] ++
     (rows.map (renderRow w1 w2)).flatten ++ [b]) ++ "\n"

/-- Modelled from the spec: the JSON-mode field list of an autoscale
spec — every present field, with the wire field names, in deterministic
alphabetically sorted key order (`cpu`, `maxReplicas`, `memory`,
`minReplicas`, `rps`, `schedules`); section 4.2, pinned by the JSON case
of `TestGetAutoscale`. -/
def autoscaleJsonFields (a : Autoscale) : List (String × JVal) :=
  (match a.cpu with | some v => [("cpu", JVal.num v)] | none => []) ++
  [("maxReplicas", JVal.num a.maxReplicas)] ++
  (match a.memory with | some v => [("memory", JVal.num v)] | none => []) ++
  [("minReplicas", JVal.num a.minReplicas)] ++
  (match a.rps with | some v => [("rps", JVal.num v)] | none => []) ++
  (if a.schedules.isEmpty then []
   else [("schedules", JVal.arr (a.schedules.map scheduledWindowJson))])

/-- The keys of the JSON-mode rendering, in output order. -/
def autoscaleJsonKeys (a : Autoscale) : List String :=
  (autoscaleJsonFields a).map Prod.fst

/-- Renders a scalar JSON value (number or string). -/
def renderScalar : JVal → String
  | .num n => toString n
  | .str s => "\"" ++ s ++ "\""
  | _ => ""

/-- Renders one field of a depth-1 JSON object (a scheduled window):
scheduled windows hold only scalar values. -/
def renderWindowField (f : String × JVal) : String :=
  "\t\t\t\"" ++ f.1 ++ "\": " ++ renderScalar f.2

/-- Renders one element of the `schedules` array (a window object) at
depth 1, with tab indentation as `json.MarshalIndent` produces. -/
def renderWindowObj : JVal → String
  | .obj fields =>
    "\t\t\x7b\n" ++ String.intercalate ",\n" (fields.map renderWindowField) ++
      "\n\t\t\x7d"
  | v => "\t\t" ++ renderScalar v

/-- Renders the value of one top-level field: a scalar, or the
`schedules` array of window objects. -/
def renderTopValue : JVal → String
  | .arr elems =>
    "[\n" ++ String.intercalate ",\n" (elems.map renderWindowObj) ++ "\n\t]"
  | v => renderScalar v

/-- Modelled from the spec: JSON-mode rendering of an autoscale spec —
the sorted field list pretty-printed with tab indentation and a
trailing newline (section 4.2; exact text pinned by the JSON case of
`TestGetAutoscale`). -/
def renderAutoscaleJson (a : Autoscale) : String :=
  "\x7b\n" ++
  String.intercalate ",\n"
    ((autoscaleJsonFields a).map
      (fun f => "\t\"" ++ f.1 ++ "\": " ++ renderTopValue f.2)) ++
  "\n\x7d\n"

/-- Modelled from the spec: the `autoscale info` command action (the
implementation is not in the source fragment).  It performs exactly one
upstream call — `upstream i` is the result the API would give to the
`i`-th call, and the second component counts the calls made — and either
wraps the upstream error with the fixed get prefix (no retry) or renders
the returned spec: JSON mode when `--json` was supplied, table mode
otherwise. -/
def getAutoscaleRun (jsonMode : Bool) (upstream : Nat → Except String Autoscale) :
    Except String String × Nat :=
  (match upstream 0 with
   | .error e => .error (getAutoscaleErrorMessage e)
   | .ok a => .ok (if jsonMode then renderAutoscaleJson a else renderAutoscaleTable a),
   1)

/-- The update invocation of `TestUpdateAutoscale`'s success case:
`--min 0 --max 10 --cpu 75` and nothing else. -/
def testUpdateFlagsCpu : UpdateFlags :=
  { service := "my-service", instanceName := "my-instance", min := 0, max := 10,
    cpu := some 75, memory := none, rps := none, schedules := [] }

/-- First schedule fragment of `TestUpdateAutoscale`'s schedules case. -/
def testWindow1 : ScheduledWindow :=
  { minReplicas := 1, start := "00 08 * * 1-5", end_ := "00 20 * * 1-5",
    timezone := none }

/-- Second schedule fragment of `TestUpdateAutoscale`'s schedules case. -/
def testWindow2 : ScheduledWindow :=
  { minReplicas := 3, start := "00 12 * * 1-5", end_ := "00 13 * * 1-5",
    timezone := none }

/-- The update invocation of `TestUpdateAutoscale`'s schedules case:
`--min 0 --max 10` and two `--schedule` fragments, in order. -/
def testUpdateFlagsSchedules : UpdateFlags :=
  { service := "my-service", instanceName := "my-instance", min := 0, max := 10,
    cpu := none, memory := none, rps := none,
    schedules := [testWindow1, testWindow2] }

/-- The autoscale spec returned by the API in `TestGetAutoscale`'s
success and JSON cases. -/
def testAutoscale : Autoscale :=
  { minReplicas := 2, maxReplicas := 5, cpu := some 50, memory := some 55,
    rps := some 100, schedules := [] }

/-- C1: an update invocation supplying only `--cpu 75 --min 0 --max 10`
serializes a payload whose fields are exactly `minReplicas: 0`,
`maxReplicas: 10` and `cpu: 75`; and for every update, an unsupplied
`cpu`, `memory`, `rps` or `schedule` flag produces no key in the
payload. -/
theorem updatePayload_exact_fields_and_no_zero_value_keys :
    updatePayloadFields testUpdateFlagsCpu =
      [("minReplicas", JVal.num 0), ("maxReplicas", JVal.num 10),
       ("cpu", JVal.num 75)] ∧
    ∀ f : UpdateFlags,
      (f.cpu = none → "cpu" ∉ updatePayloadKeys f) ∧
      (f.memory = none → "memory" ∉ updatePayloadKeys f) ∧
      (f.rps = none → "rps" ∉ updatePayloadKeys f) ∧
      (f.schedules = [] → "schedules" ∉ updatePayloadKeys f) := by
  constructor
  · rfl
  · rintro ⟨s, i, mn, mx, c, m, r, sch⟩
    cases c <;> cases m <;> cases r <;> cases sch <;>
      refine ⟨?_, ?_, ?_, ?_⟩ <;> intro h <;>
      simp_all [updatePayloadKeys, updatePayloadFields, buildUpdatePayload]

/-- Witness for C1 at the `--cpu 75 --min 0 --max 10` invocation: the
unsupplied memory flag yields no `memory` key. -/
theorem updatePayload_exact_fields_witness :
    "memory" ∉ updatePayloadKeys testUpdateFlagsCpu :=
  ((updatePayload_exact_fields_and_no_zero_value_keys.2
    testUpdateFlagsCpu).2.1) rfl

/-- C2 counterexample: the get operation does not use the prefix
"could not get the autoscale on RPaaS API: " the claim states — on
upstream error "404 Not Found" it produces
"could not get autoscale from RPaaS API: 404 Not Found". -/
theorem autoscale_get_error_prefix_counterexample :
    getAutoscaleErrorMessage "404 Not Found" ≠
      "could not get the autoscale on RPaaS API: 404 Not Found" := by
  decide

/-- C2 (amended): every failing upstream call of the autoscale get,
update or delete operation yields the fixed operation prefix — "could
not get autoscale from RPaaS API: " for get, "could not update the
autoscale on RPaaS API: " for update, "could not delete the autoscale
on RPaaS API: " for delete — with the upstream error text appended
verbatim, and the operation makes exactly one upstream call (no
retry). -/
theorem autoscale_error_wrapping_amended :
    (∀ e : String,
      getAutoscaleErrorMessage e =
        "could not get autoscale from RPaaS API: " ++ e ∧
      updateAutoscaleErrorMessage e =
        "could not update the autoscale on RPaaS API: " ++ e ∧
      deleteAutoscaleErrorMessage e =
        "could not delete the autoscale on RPaaS API: " ++ e) ∧
    (∀ (e : String) (b : Bool) (up : Nat → Except String Autoscale),
      up 0 = .error e →
        getAutoscaleRun b up = (.error (getAutoscaleErrorMessage e), 1)) ∧
    (∀ (e : String) (f : UpdateFlags) (up : Nat → Except String Unit),
      up 0 = .error e →
        updateAutoscaleRun f up = (.error (updateAutoscaleErrorMessage e), 1)) ∧
    (∀ (e svc inst : String) (up : Nat → Except String Unit),
      up 0 = .error e →
        removeAutoscaleRun svc inst up =
          (.error (deleteAutoscaleErrorMessage e), 1)) := by
  refine ⟨fun e => ⟨rfl, rfl, rfl⟩, ?_, ?_, ?_⟩ <;> intros <;>
    simp [getAutoscaleRun, updateAutoscaleRun, removeAutoscaleRun, *]

/-- Witness for the amended C2: a get call whose upstream fails with
"404 Not Found" returns the wrapped error after exactly one call. -/
theorem autoscale_error_wrapping_amended_witness :
    getAutoscaleRun false (fun _ => .error "404 Not Found") =
      (.error (getAutoscaleErrorMessage "404 Not Found"), 1) :=
  autoscale_error_wrapping_amended.2.1 "404 Not Found" false
    (fun _ => .error "404 Not Found") rfl

/-- C3: a 404 upstream response on `autoscale info` yields exactly the
error text "could not get autoscale from RPaaS API: 404 Not Found" and
a non-zero exit code. -/
theorem autoscale_info_404_error_text :
    ∀ (b : Bool) (up : Nat → Except String Autoscale),
      up 0 = .error "404 Not Found" →
        (getAutoscaleRun b up).1 =
          .error "could not get autoscale from RPaaS API: 404 Not Found" ∧
        exitCodeOf (getAutoscaleRun b up).1 ≠ 0 := by
  intro b up h
  simp [getAutoscaleRun, h, exitCodeOf, getAutoscaleErrorMessage]

/-- Witness for C3 at a concrete upstream that always answers 404. -/
theorem autoscale_info_404_error_text_witness :
    (getAutoscaleRun false (fun _ => .error "404 Not Found")).1 =
      .error "could not get autoscale from RPaaS API: 404 Not Found" ∧
    exitCodeOf (getAutoscaleRun false (fun _ => .error "404 Not Found")).1 ≠ 0 :=
  autoscale_info_404_error_text false (fun _ => .error "404 Not Found") rfl

/-- C7: the payload of an update supplying schedule fragments contains a
`schedules` array holding exactly the fragments' JSON objects in the
order they were supplied; in particular the two-fragment invocation of
`TestUpdateAutoscale` produces its two windows in command-line order. -/
theorem updatePayload_schedules_preserve_order :
    (∀ f : UpdateFlags, f.schedules ≠ [] →
      List.lookup "schedules" (updatePayloadFields f) =
        some (JVal.arr (f.schedules.map scheduledWindowJson))) ∧
    updatePayloadFields testUpdateFlagsSchedules =
      [("minReplicas", JVal.num 0), ("maxReplicas", JVal.num 10),
       ("schedules", JVal.arr
         [scheduledWindowJson testWindow1, scheduledWindowJson testWindow2])] := by
  constructor
  · rintro ⟨s, i, mn, mx, c, m, r, sch⟩ h
    cases c <;> cases m <;> cases r <;> cases sch <;>
      simp_all [updatePayloadFields, buildUpdatePayload, List.lookup]
  · rfl

/-- Witness for C7 at the two-fragment invocation of
`TestUpdateAutoscale`. -/
theorem updatePayload_schedules_preserve_order_witness :
    List.lookup "schedules" (updatePayloadFields testUpdateFlagsSchedules) =
      some (JVal.arr
        (testUpdateFlagsSchedules.schedules.map scheduledWindowJson)) :=
  updatePayload_schedules_preserve_order.1 testUpdateFlagsSchedules
    (by decide)

/-- C8: on upstream success, `autoscale update` exits zero and writes
"Autoscale of SERVICE/INSTANCE successfully updated!" and `autoscale
remove` exits zero and writes "Autoscale of SERVICE/INSTANCE
successfully removed", for the supplied service and instance names. -/
theorem autoscale_success_messages :
    ∀ (f : UpdateFlags) (svc inst : String) (up : Nat → Except String Unit),
      up 0 = .ok () →
        (updateAutoscaleRun f up).1 =
          .ok ("Autoscale of " ++ f.service ++ "/" ++ f.instanceName ++
            " successfully updated!\n") ∧
        exitCodeOf (updateAutoscaleRun f up).1 = 0 ∧
        (removeAutoscaleRun svc inst up).1 =
          .ok ("Autoscale of " ++ svc ++ "/" ++ inst ++
            " successfully removed\n") ∧
        exitCodeOf (removeAutoscaleRun svc inst up).1 = 0 := by
  intro f svc inst up h
  simp [updateAutoscaleRun, removeAutoscaleRun, exitCodeOf, h]

/-- Witness for C8 at `my-service`/`my-instance` with a succeeding
upstream. -/
theorem autoscale_success_messages_witness :
    (updateAutoscaleRun testUpdateFlagsCpu (fun _ => .ok ())).1 =
      .ok ("Autoscale of " ++ testUpdateFlagsCpu.service ++ "/" ++
        testUpdateFlagsCpu.instanceName ++ " successfully updated!\n") ∧
    exitCodeOf (updateAutoscaleRun testUpdateFlagsCpu (fun _ => .ok ())).1 = 0 ∧
    (removeAutoscaleRun "my-service" "my-instance" (fun _ => .ok ())).1 =
      .ok ("Autoscale of my-service/my-instance successfully removed\n") ∧
    exitCodeOf
      (removeAutoscaleRun "my-service" "my-instance" (fun _ => .ok ())).1 = 0 :=
  autoscale_success_messages testUpdateFlagsCpu "my-service" "my-instance"
    (fun _ => .ok ()) rfl

/-- C4: the cron expression "00 08 * * 1-5" humanizes to the weekday
plus time rendering with the raw cron appended in parentheses, and a
scheduled window with that start expression shows exactly that text on
the Start line of its table block. -/
theorem schedule_window_humanization :
    humanizedWithRaw "00 08 * * 1-5" =
      "At 08:00 AM, Monday through Friday (00 08 * * 1-5)" ∧
    ∀ (i : Nat) (w : ScheduledWindow), w.start = "00 08 * * 1-5" →
      (scheduleWindowBlock i w)[2]? =
        some "  Start: At 08:00 AM, Monday through Friday (00 08 * * 1-5)" := by
  refine ⟨by decide, ?_⟩
  intro i w h
  cases hw : w.timezone <;>
    simp [scheduleWindowBlock, h, hw] <;> decide

/-- Witness for C4 at the first window of `TestGetAutoscale`'s schedule
case. -/
theorem schedule_window_humanization_witness :
    (scheduleWindowBlock 1 testWindow1)[2]? =
      some "  Start: At 08:00 AM, Monday through Friday (00 08 * * 1-5)" :=
  schedule_window_humanization.2 1 testWindow1 rfl

/-- C5: table rendering of the spec with minReplicas 2, maxReplicas 5
and triggers CPU 50, Memory 55, RPS 100 produces exactly the two header
lines followed by the fixed-width two-column Triggers table with rows
"CPU 50%", "Memory 55%" and "RPS 100 req/s". -/
theorem autoscale_table_rendering_exact :
    renderAutoscaleTable testAutoscale =
      "min replicas: 2\n" ++
      "max replicas: 5\n" ++
      "+----------+-----------------+\n" ++
      "| Triggers | trigger details |\n" ++
      "+----------+-----------------+\n" ++
      "| CPU      | 50%             |\n" ++
      "| Memory   | 55%             |\n" ++
      "| RPS      | 100 req/s       |\n" ++
      "+----------+-----------------+\n" := by
  set_option maxRecDepth 20000 in decide

/-- C6: JSON-mode rendering uses deterministic, alphabetically sorted
key order for every spec value, and on the spec of `TestGetAutoscale`'s
JSON case it produces exactly the pinned text. -/
theorem autoscale_json_sorted_keys :
    (∀ a : Autoscale, (autoscaleJsonKeys a).Pairwise (· < ·)) ∧
    renderAutoscaleJson testAutoscale =
      "\x7b\n\t\"cpu\": 50,\n\t\"maxReplicas\": 5,\n\t\"memory\": 55," ++
      "\n\t\"minReplicas\": 2,\n\t\"rps\": 100\n\x7d\n" := by
  constructor
  · rintro ⟨mn, mx, c, m, r, sch⟩
    cases c <;> cases m <;> cases r <;> cases sch <;>
      simp [autoscaleJsonKeys, autoscaleJsonFields] <;> decide
  · decide

/-- C9: `runLogRpaas` is a pure parameter-marshalling pass-through —
with a client in hand it calls the client's Log operation exactly on the
marshalled `LogArgs`, and every `LogArgs` field equals the corresponding
parsed flag value (`color` being the negation of `without-color`, `out`
the application writer). -/
theorem runLogRpaas_pass_through :
    ∀ (ω : Type) (logFn : LogArgs ω → Except String Unit) (writer : ω)
      (f : LogFlags),
      runLogRpaas (.ok logFn) writer f = logFn (marshalLogArgs writer f) ∧
      (marshalLogArgs writer f).out = writer ∧
      (marshalLogArgs writer f).instanceName = f.instanceName ∧
      (marshalLogArgs writer f).lines = f.lines ∧
      (marshalLogArgs writer f).since = f.since ∧
      (marshalLogArgs writer f).follow = f.follow ∧
      (marshalLogArgs writer f).pod = f.pod ∧
      (marshalLogArgs writer f).container = f.container ∧
      (marshalLogArgs writer f).color = (!f.withoutColor) :=
  fun _ _ _ _ => ⟨rfl, rfl, rfl, rfl, rfl, rfl, rfl, rfl, rfl⟩

/-- C10: the `color` field passed to the client is always the logical
negation of the `without-color` flag; leaving the flag at its `false`
default yields `color = true`, supplying it yields `color = false`. -/
theorem logArgs_color_negates_without_color :
    ∀ (ω : Type) (writer : ω) (f : LogFlags),
      (marshalLogArgs writer f).color = (!f.withoutColor) ∧
      (marshalLogArgs writer { f with withoutColor := false }).color = true ∧
      (marshalLogArgs writer { f with withoutColor := true }).color = false :=
  fun _ _ _ => ⟨rfl, rfl, rfl⟩

end RpaasCLI
